import Mathlib

/-!
Shallow embedding of the AIBench batch-execution and answer-coercion
pipeline (backend/main.py, backend/models.py).  Python values that flow
through the coercion code are modelled by a JSON-like value type; Python
exceptions are modelled by `Except Unit`; the database session is modelled
by explicit state records.  Each definition names the source function it
embeds.
-/

/-- A parsed JSON / Python value, as produced by `json.loads` or built by
`generate_model_response`.  JSON numbers are modelled as integers (no claim
depends on float formatting). -/
inductive JValue where
  | null
  | bool (b : Bool)
  | num (n : Int)
  | str (s : String)
  | arr (xs : List JValue)
  | obj (fields : List (String × JValue))

/-- `True` iff the value is JSON null (Python `None`). -/
def jIsNull : JValue → Bool
  | .null => true
  | _ => false

/-- `True` iff the value is a string (Python `isinstance(val, str)`). -/
def jIsStr : JValue → Bool
  | .str _ => true
  | _ => false

/-- Python truthiness (`bool(v)`) on JSON values: `None`, `False`, `0`,
`""`, `[]` and `{}` are falsy, everything else truthy. -/
def pyBool : JValue → Bool
  | .null => false
  | .bool b => b
  | .num n => n != 0
  | .str s => s != ""
  | .arr xs => !xs.isEmpty
  | .obj fs => !fs.isEmpty

/-- First-match lookup in a Python dict modelled as an association list. -/
def assocLookup (fs : List (String × JValue)) (k : String) : Option JValue :=
  match fs with
  | [] => none
  | (k2, v) :: rest => if k2 = k then some v else assocLookup rest k

/-- Python `d.get(k)`: returns the value (JSON null for a missing key) on a
dict, raises `AttributeError` (modelled as `.error ()`) on anything else. -/
def pyGet : JValue → String → Except Unit JValue
  | .obj fs, k => .ok ((assocLookup fs k).getD .null)
  | _, _ => .error ()

/-- Python `d.get(k, default)`: like `pyGet` but with an explicit default;
still raises on a non-dict receiver. -/
def pyGetD : JValue → String → JValue → Except Unit JValue
  | .obj fs, k, d => .ok ((assocLookup fs k).getD d)
  | _, _, _ => .error ()

/-- A single-quote character, used by the Python `repr` rendering. -/
def squote : String := String.singleton (Char.ofNat 39)

mutual

/-- Python `repr` of a JSON value (the element rendering used by `str` on
containers).  String escaping is elided: no claim evaluates the rendering
of a container holding quote characters. -/
def pyRepr : JValue → String
  | .null => "None"
  | .bool true => "True"
  | .bool false => "False"
  | .num n => toString n
  | .str s => squote ++ s ++ squote
  | .arr xs => "[" ++ String.intercalate ", " (pyReprList xs) ++ "]"
  | .obj fs => "\x7b" ++ String.intercalate ", " (pyReprFields fs) ++ "\x7d"

/-- `repr` of each element of a JSON array. -/
def pyReprList : List JValue → List String
  | [] => []
  | x :: xs => pyRepr x :: pyReprList xs

/-- `repr` of each key/value pair of a JSON object. -/
def pyReprFields : List (String × JValue) → List String
  | [] => []
  | kv :: fs => (squote ++ kv.1 ++ squote ++ ": " ++ pyRepr kv.2) :: pyReprFields fs

end

/-- Python `str(v)`: identity on strings, `repr`-style otherwise. -/
def pyStr : JValue → String
  | .str s => s
  | v => pyRepr v

/-- Python `str.strip()`: drop leading and trailing whitespace (space, tab,
carriage return, newline; the exotic Unicode space classes Python also
strips are not needed by any claim).  Modelled over the character list so
that concrete inputs evaluate inside the kernel. -/
def pyStrip (s : String) : String :=
  String.mk (((s.data.dropWhile Char.isWhitespace).reverse.dropWhile Char.isWhitespace).reverse)

/-- Python `str.lower()`: ASCII case folding, which is all the normalised
keyword sets compare against. -/
def pyLower (s : String) : String :=
  String.mk (s.data.map Char.toLower)

mutual

/-- `json.dumps` with default separators.  String escaping is elided: the
code only serialises option snapshots and ranking id lists. -/
def jsonDumps : JValue → String
  | .null => "null"
  | .bool true => "true"
  | .bool false => "false"
  | .num n => toString n
  | .str s => "\"" ++ s ++ "\""
  | .arr xs => "[" ++ String.intercalate ", " (jsonDumpsList xs) ++ "]"
  | .obj fs => "\x7b" ++ String.intercalate ", " (jsonDumpsFields fs) ++ "\x7d"

/-- `json.dumps` of each element of a JSON array. -/
def jsonDumpsList : List JValue → List String
  | [] => []
  | x :: xs => jsonDumps x :: jsonDumpsList xs

/-- `json.dumps` of each key/value pair of a JSON object. -/
def jsonDumpsFields : List (String × JValue) → List String
  | [] => []
  | kv :: fs => ("\"" ++ kv.1 ++ "\": " ++ jsonDumps kv.2) :: jsonDumpsFields fs

end

/-- `AnswerType` from backend/models.py. -/
inductive AnswerType where
  | free_text
  | true_false
  | single_choice
  | ranking
deriving DecidableEq, Repr

/-- `ExperimentStatus` from backend/models.py. -/
inductive ExperimentStatus where
  | planned
  | running
  | finished
  | failed
deriving DecidableEq, Repr

/-- `RunStatus` from backend/models.py. -/
inductive RunStatus where
  | running
  | completed
  | failed
deriving DecidableEq, Repr

/-- `Exercise` row (backend/models.py): the fields read by the executor. -/
structure ExerciseRec where
  id : Nat
  question_text : String
  answer_type : AnswerType

/-- `ExerciseOption` row (backend/models.py): the fields read by the
executor.  -/
structure OptionRec where
  id : Nat
  text : String
  position : Nat

/-- The four typed answer slots assigned by the extraction block of
`store_batch_item` (main.py lines 181-204).  `answer_option_id` keeps the
raw JSON value because the source stores `selected_option_id` verbatim
with no validation. -/
structure AnswerFields where
  answer_text : Option String := none
  answer_boolean : Option Bool := none
  answer_option_id : Option JValue := none
  answer_ranking_json : Option String := none

/-- main.py line 187:
`response_json.get("response") or response_json.get("expected", {}).get("response", {})`.
The legacy fallback is consulted whenever the `response` value is *falsy*
(absent, null, false, 0, empty string/array/object), because Python `or`
tests truthiness, not key presence. -/
def extractSection (rj : JValue) : Except Unit JValue :=
  match pyGet rj "response" with
  | .error e => .error e
  | .ok r =>
    if pyBool r then .ok r
    else
      match pyGetD rj "expected" (.obj []) with
      | .error e => .error e
      | .ok e => pyGetD e "response" (.obj [])

/-- Follows the spec's words for claim comparison (not the source): the
typed answer is extracted from the `response` key's value whenever that
key is *present*; the legacy `expected.response` wrapper is consulted only
when the `response` key is absent. -/
def extractSectionSpec (rj : JValue) : Except Unit JValue :=
  match rj with
  | .obj fs =>
    match assocLookup fs "response" with
    | some v => .ok v
    | none => pyGetD ((assocLookup fs "expected").getD (.obj [])) "response" (.obj [])
  | _ => .error ()

/-- main.py lines 188-204: the per-`answer_type` extraction applied to the
already-selected response section.  Every Python statement that can raise
(`.get` on a non-dict) is an `.error`; fallback rules (string
normalisation for true_false, the `isinstance(list)` test for ranking)
produce `.ok` values. -/
def extractFrom (sec0 : Except Unit JValue) (ty : AnswerType) : Except Unit AnswerFields :=
  match sec0 with
  | .error e => .error e
  | .ok sec =>
    match ty with
    | .free_text =>
      match pyGetD sec "text" (.str "") with
      | .error e => .error e
      | .ok t => .ok { answer_text := some (pyStrip (pyStr t)) }
    | .true_false =>
      match pyGet sec "value" with
      | .error e => .error e
      | .ok v0 =>
        let v : JValue :=
          match v0 with
          | .str s =>
            let lw := pyLower (pyStrip s)
            if lw = "true" ∨ lw = "yes" ∨ lw = "y" then .bool true
            else if lw = "false" ∨ lw = "no" ∨ lw = "n" then .bool false
            else .str s
          | w => w
        .ok { answer_boolean := match v with | .null => none | w => some (pyBool w) }
    | .single_choice =>
      match pyGet sec "selected_option_id" with
      | .error e => .error e
      | .ok v => .ok { answer_option_id := match v with | .null => none | w => some w }
    | .ranking =>
      match pyGet sec "ordered_option_ids" with
      | .error e => .error e
      | .ok (.arr xs) => .ok { answer_ranking_json := some (jsonDumps (.arr xs)) }
      | .ok _ => .ok {}

/-- The whole guarded extraction block of `store_batch_item`
(main.py lines 185-204): section selection followed by typed extraction. -/
def extractAnswers (ty : AnswerType) (rj : JValue) : Except Unit AnswerFields :=
  extractFrom (extractSection rj) ty

/-- main.py lines 174-180: on a provider exception `response_json` becomes
`{}` (and `parse_success` is already false). -/
def response_json_of (pr : Except Unit JValue) : JValue :=
  match pr with
  | .ok v => v
  | .error _ => .obj []

/-- `True` iff the computation did not raise. -/
def exOk {α : Type} : Except Unit α → Bool
  | .ok _ => true
  | .error _ => false

/-- main.py line 213: the JSON snapshot of the option set. -/
def optionsJson (opts : List OptionRec) : String :=
  jsonDumps (.arr (opts.map (fun o => .obj [("id", .num (Int.ofNat o.id)), ("text", .str o.text)])))

/-- `BatchItem` row (backend/models.py lines 77-89).  `run_index` stands
for `run_id`: within one experiment the run is identified by its index. -/
structure BatchItemRec where
  run_index : Nat
  exercise_id : Nat
  question_text : String
  answer_type : AnswerType
  options_json : String
  answer_text : Option String
  answer_boolean : Option Bool
  answer_option_id : Option JValue
  answer_ranking_json : Option String
  parse_success : Bool

/-- The coercion contract `coerce(answer_type, rawResponse) ->
(typedAnswer, parseSuccess)` realised by `store_batch_item` (main.py lines
173-206).  `pr` is the outcome of the `generate_model_response` call:
`.error ()` when the provider call raised (caught at lines 178-180),
`.ok reply` otherwise.  When the extraction block raises, every
partially-assigned answer field is still `None` (each branch assigns its
field in one final statement), so the error branch yields four empty
fields with `parse_success := false`; otherwise `parse_success` keeps the
value set by the provider try/except. -/
def coerceAnswers (ty : AnswerType) (pr : Except Unit JValue) : AnswerFields × Bool :=
  match extractAnswers ty (response_json_of pr) with
  | .ok f => (f, exOk pr)
  | .error _ => ({}, false)

/-- `store_batch_item` (main.py lines 169-220): build the BatchItem row
for one (run, exercise) pair from the coerced answer. -/
def store_batch_item (ridx : Nat) (ex : ExerciseRec) (opts : List OptionRec)
    (pr : Except Unit JValue) : BatchItemRec :=
  let fp := coerceAnswers ex.answer_type pr
  { run_index := ridx, exercise_id := ex.id, question_text := ex.question_text,
    answer_type := ex.answer_type, options_json := optionsJson opts,
    answer_text := fp.1.answer_text, answer_boolean := fp.1.answer_boolean,
    answer_option_id := fp.1.answer_option_id, answer_ranking_json := fp.1.answer_ranking_json,
    parse_success := fp.2 }

/-- `call_openai` content handling (main.py lines 143-147): `parsed` is the
outcome of `json.loads(content)` (`none` when the content is not valid
JSON); a non-JSON 2xx reply is wrapped as a `response.text` object instead
of failing. -/
def call_openai_content (content : String) (parsed : Option JValue) : JValue :=
  match parsed with
  | some v => v
  | none => .obj [("response", .obj [("text", .str content)])]

/-- `Experiment` row (backend/models.py): the fields read by the executor.
`temperature` is omitted (floating point; no claim depends on it). -/
structure ExperimentRec where
  runs : Nat
  provider : String
  model : String

/-- `Run` row (backend/models.py): the fields the claims are about, with
the provider/model snapshot copied from the experiment at creation. -/
structure RunRow where
  run_index : Nat
  provider : String
  model : String
  status : RunStatus

/-- The rows of one experiment plus its lifecycle status: the slice of the
database that `execute_experiment` mutates. -/
structure ExpState where
  status : ExperimentStatus
  runRows : List RunRow
  items : List BatchItemRec

/-- main.py lines 248-255: the Run row for index `idx`, shown in its final
completed state (lines 262-264); nothing in the modelled loop body can
fail between creation and completion. -/
def mkRunRow (exp : ExperimentRec) (idx : Nat) : RunRow :=
  { run_index := idx, provider := exp.provider, model := exp.model, status := .completed }

/-- main.py lines 260-261: the batch items of one run, one per resolved
bundled exercise in position order.  `oracle idx exId` is the outcome of
the `generate_model_response` call for run `idx` and that exercise. -/
def runBlock (exs : List (ExerciseRec × List OptionRec))
    (oracle : Nat → Nat → Except Unit JValue) (idx : Nat) : List BatchItemRec :=
  exs.map (fun p => store_batch_item idx p.1 p.2 (oracle idx p.1.id))

/-- One iteration of the run loop (main.py lines 247-264): append the Run
row and its batch items. -/
def execRun (exp : ExperimentRec) (exs : List (ExerciseRec × List OptionRec))
    (oracle : Nat → Nat → Except Unit JValue) (st : ExpState) (idx : Nat) : ExpState :=
  { st with runRows := st.runRows ++ [mkRunRow exp idx],
            items := st.items ++ runBlock exs oracle idx }

/-- `execute_experiment` (main.py lines 223-269) for an existing
experiment.  `exs` is the resolved bundled-exercise list (lines 232-246:
links in position order, missing exercises dropped).  The source checks
only that the experiment exists — there is *no* status guard — then sets
status running, iterates `range(1, runs + 1)`, and sets status finished.
Provider failures are values of the oracle, caught inside
`store_batch_item`, so nothing in the modelled loop raises (the
except-branch that sets status failed models only external database
failures, which are outside the embedding). -/
def execute_experiment (exp : ExperimentRec) (exs : List (ExerciseRec × List OptionRec))
    (oracle : Nat → Nat → Except Unit JValue) (st : ExpState) : ExpState :=
  let st1 : ExpState := { st with status := .running }
  let st2 := (List.range' 1 exp.runs).foldl (execRun exp exs oracle) st1
  { st2 with status := .finished }

/-- `Settings` row (backend/models.py lines 91-97): one optional API key
per provider. -/
structure SettingsRec where
  openai_key : Option String
  anthropic_key : Option String
  gemini_key : Option String
  grok_key : Option String

/-- main.py lines 510-515: the provider-to-key dictionary. -/
def provider_key_map (s : SettingsRec) : List (String × Option String) :=
  [("openai", s.openai_key), ("anthropic", s.anthropic_key),
   ("gemini", s.gemini_key), ("grok", s.grok_key)]

/-- Python `not key` on a settings entry: missing (`None`) or empty. -/
def keyFalsy : Option String → Bool
  | none => true
  | some s => s = ""

/-- Dictionary lookup in `provider_key_map`: `some k` iff the provider is
one of the four known names. -/
def lookupKey (m : List (String × Option String)) (p : String) : Option (Option String) :=
  match m with
  | [] => none
  | kv :: rest => if kv.1 = p then some kv.2 else lookupKey rest p

/-- `ExperimentPayload` (main.py lines 56-63); `temperature` omitted. -/
structure ExperimentPayload where
  name : String
  description : String
  provider : String
  model : String
  runs : Nat
  exercise_ids : List Nat

/-- `Experiment` row as created by `create_experiment`. -/
structure CreatedExperiment where
  id : Nat
  name : String
  provider : String
  model : String
  runs : Nat
  status : ExperimentStatus

/-- The tables touched (or deliberately untouched) by experiment
creation. -/
structure CreateDB where
  experiments : List CreatedExperiment
  expLinks : List (Nat × Nat × Nat)
  runRows : List RunRow
  items : List BatchItemRec

/-- main.py lines 518-537: the empty-exercise check and the insert of the
Experiment row plus its ordered ExperimentExercise links.  The id models
the autoincrement primary key.  `execute_experiment` is only *scheduled*
as a background task (line 536), so creation itself writes no Run and no
BatchItem row. -/
def create_experiment_insert (payload : ExperimentPayload) (db : CreateDB) :
    CreateDB × Except (Nat × String) Nat :=
  if payload.exercise_ids = [] then
    (db, .error (400, "Select at least one exercise"))
  else
    let eid := db.experiments.length + 1
    ({ db with
        experiments := db.experiments ++
          [{ id := eid, name := payload.name, provider := payload.provider,
             model := payload.model, runs := payload.runs, status := .planned }],
        expLinks := db.expLinks ++
          payload.exercise_ids.enum.map (fun p => (eid, p.2, p.1)) },
     .ok eid)

/-- `create_experiment` (main.py lines 506-537).  The key check (lines
516-517) fires only when the provider is *in* `provider_key_map` and its
key is falsy; an unknown provider skips the check entirely. -/
def create_experiment (payload : ExperimentPayload) (settings : SettingsRec)
    (db : CreateDB) : CreateDB × Except (Nat × String) Nat :=
  match lookupKey (provider_key_map settings) payload.provider with
  | some k =>
    if keyFalsy k then (db, .error (400, "API key missing for selected provider"))
    else create_experiment_insert payload db
  | none => create_experiment_insert payload db

/-- The number of non-null answer fields of a stored batch item. -/
def populatedCount (b : BatchItemRec) : Nat :=
  (if b.answer_text.isSome then 1 else 0) +
  (if b.answer_boolean.isSome then 1 else 0) +
  (if b.answer_option_id.isSome then 1 else 0) +
  (if b.answer_ranking_json.isSome then 1 else 0)

/-- Each populated answer field is the one matching the item's snapshotted
`answer_type`. -/
def fieldsMatchType (b : BatchItemRec) : Prop :=
  (b.answer_text.isSome → b.answer_type = .free_text) ∧
  (b.answer_boolean.isSome → b.answer_type = .true_false) ∧
  (b.answer_option_id.isSome → b.answer_type = .single_choice) ∧
  (b.answer_ranking_json.isSome → b.answer_type = .ranking)

/-- Concatenation of a list of lists (the rows written by successive
runs). -/
def joinAll {α : Type} : List (List α) → List α
  | [] => []
  | x :: xs => x ++ joinAll xs

theorem store_batch_item_run_index (ridx : Nat) (ex : ExerciseRec) (opts : List OptionRec)
    (pr : Except Unit JValue) : (store_batch_item ridx ex opts pr).run_index = ridx := rfl

theorem store_batch_item_exercise_id (ridx : Nat) (ex : ExerciseRec) (opts : List OptionRec)
    (pr : Except Unit JValue) : (store_batch_item ridx ex opts pr).exercise_id = ex.id := rfl

theorem store_batch_item_answer_type (ridx : Nat) (ex : ExerciseRec) (opts : List OptionRec)
    (pr : Except Unit JValue) : (store_batch_item ridx ex opts pr).answer_type = ex.answer_type := rfl

theorem foldl_execRun_runRows (exp : ExperimentRec) (exs : List (ExerciseRec × List OptionRec))
    (oracle : Nat → Nat → Except Unit JValue) :
    ∀ (l : List Nat) (st : ExpState),
      (l.foldl (execRun exp exs oracle) st).runRows = st.runRows ++ l.map (mkRunRow exp) := by
  intro l
  induction l with
  | nil => intro st; simp
  | cons a l ih =>
    intro st
    simp only [List.foldl_cons, List.map_cons, ih, execRun, List.append_assoc,
      List.singleton_append]

theorem foldl_execRun_items (exp : ExperimentRec) (exs : List (ExerciseRec × List OptionRec))
    (oracle : Nat → Nat → Except Unit JValue) :
    ∀ (l : List Nat) (st : ExpState),
      (l.foldl (execRun exp exs oracle) st).items =
        st.items ++ joinAll (l.map (runBlock exs oracle)) := by
  intro l
  induction l with
  | nil => intro st; simp [joinAll]
  | cons a l ih =>
    intro st
    simp only [List.foldl_cons, List.map_cons, ih, execRun, joinAll, List.append_assoc]

theorem length_joinAll_runBlock (exs : List (ExerciseRec × List OptionRec))
    (oracle : Nat → Nat → Except Unit JValue) :
    ∀ (l : List Nat), (joinAll (l.map (runBlock exs oracle))).length = l.length * exs.length := by
  intro l
  induction l with
  | nil => simp [joinAll]
  | cons a l ih =>
    simp only [List.map_cons, joinAll, List.length_append, ih, List.length_cons,
      Nat.succ_mul, runBlock, List.length_map]
    omega

theorem filter_runBlock (exs : List (ExerciseRec × List OptionRec))
    (oracle : Nat → Nat → Except Unit JValue) (i j : Nat) :
    (runBlock exs oracle j).filter (fun b => b.run_index = i) =
      if j = i then runBlock exs oracle j else [] := by
  induction exs with
  | nil => simp [runBlock]
  | cons p ps ih =>
    simp only [runBlock, List.map_cons, List.filter_cons, store_batch_item_run_index] at *
    by_cases h : j = i
    · simp [h] at *
      exact ih
    · simp [h] at *
      exact ih

theorem filter_joinAll_blocks (exs : List (ExerciseRec × List OptionRec))
    (oracle : Nat → Nat → Except Unit JValue) (i : Nat) :
    ∀ (l : List Nat), l.Nodup →
      (joinAll (l.map (runBlock exs oracle))).filter (fun b => b.run_index = i) =
        if i ∈ l then runBlock exs oracle i else [] := by
  intro l
  induction l with
  | nil => intro _; simp [joinAll]
  | cons a l ih =>
    intro hnd
    rcases List.nodup_cons.mp hnd with ⟨ha, hnd2⟩
    simp only [List.map_cons, joinAll, List.filter_append, ih hnd2, filter_runBlock]
    by_cases h : a = i
    · subst h
      have : a ∉ l := ha
      simp [this]
    · have hia : ¬i = a := fun hh => h hh.symm
      simp [List.mem_cons, h, hia]

theorem map_exercise_id_runBlock (exs : List (ExerciseRec × List OptionRec))
    (oracle : Nat → Nat → Except Unit JValue) (i : Nat) :
    (runBlock exs oracle i).map (fun b => b.exercise_id) = exs.map (fun p => p.1.id) := by
  simp [runBlock, List.map_map, Function.comp_def, store_batch_item_exercise_id]

/-- Sample rows used by concrete witnesses and counterexamples. -/
def exFT : ExerciseRec := ⟨5, "q1", .free_text⟩

def exTF : ExerciseRec := ⟨6, "q2", .true_false⟩

def exRank : ExerciseRec := ⟨7, "q3", .ranking⟩

/-- A provider oracle whose every call raises (network failure). -/
def sampleOracle : Nat → Nat → Except Unit JValue := fun _ _ => .error ()

def plannedSt : ExpState := ⟨.planned, [], []⟩

def expTwoRuns : ExperimentRec := ⟨2, "openai", "gpt-4"⟩

def expOneRun : ExperimentRec := ⟨1, "openai", "gpt-4"⟩

def finishedSt : ExpState := ⟨.finished, [⟨1, "openai", "gpt-4", .completed⟩], []⟩

/-- C1: one completed `execute_experiment` invocation on an experiment
with run count N and K resolved bundled exercises writes exactly N·K
BatchItem rows — for each run index 1..N the items of that run list the
bundled exercise ids exactly once each, in position order — regardless of
how many provider calls (oracle values) or coercion attempts failed. -/
theorem c1_batch_rows (exp : ExperimentRec) (exs : List (ExerciseRec × List OptionRec))
    (oracle : Nat → Nat → Except Unit JValue) (st : ExpState) (h : st.items = []) :
    (execute_experiment exp exs oracle st).items.length = exp.runs * exs.length ∧
    ∀ i : Nat,
      ((execute_experiment exp exs oracle st).items.filter
          (fun b => b.run_index = i)).map (fun b => b.exercise_id) =
        if 1 ≤ i ∧ i ≤ exp.runs then exs.map (fun p => p.1.id) else [] := by
  have hitems : (execute_experiment exp exs oracle st).items =
      joinAll ((List.range' 1 exp.runs).map (runBlock exs oracle)) := by
    simp [execute_experiment, foldl_execRun_items, h]
  constructor
  · rw [hitems, length_joinAll_runBlock, List.length_range']
  · intro i
    rw [hitems, filter_joinAll_blocks _ _ _ _ (List.nodup_range' _ _)]
    by_cases hi : i ∈ List.range' 1 exp.runs
    · have hb := List.mem_range'_1.mp hi
      rw [if_pos hi, if_pos ⟨hb.1, by omega⟩, map_exercise_id_runBlock]
    · have hnb : ¬(1 ≤ i ∧ i ≤ exp.runs) := by
        intro hh
        exact hi (List.mem_range'_1.mpr ⟨hh.1, by omega⟩)
      rw [if_neg hi, if_neg hnb]
      rfl

theorem c1_batch_rows_witness :
    (execute_experiment expTwoRuns [(exFT, []), (exTF, [])] sampleOracle plannedSt).items.length =
      expTwoRuns.runs * [(exFT, ([] : List OptionRec)), (exTF, [])].length ∧
    ∀ i : Nat,
      ((execute_experiment expTwoRuns [(exFT, []), (exTF, [])] sampleOracle plannedSt).items.filter
          (fun b => b.run_index = i)).map (fun b => b.exercise_id) =
        if 1 ≤ i ∧ i ≤ expTwoRuns.runs then
          [(exFT, ([] : List OptionRec)), (exTF, [])].map (fun p => p.1.id) else [] :=
  c1_batch_rows expTwoRuns [(exFT, []), (exTF, [])] sampleOracle plannedSt rfl

/-- C2: the claim says `execute_experiment` is guarded on status at entry
and re-invocation on a non-planned experiment is a no-op.  The source has
no such guard (main.py lines 223-231 only check existence): re-invoking it
on an already finished experiment with one existing Run row appends a
second Run row (with a duplicate `run_index` 1) and one more BatchItem. -/
theorem c2_no_status_guard :
    (execute_experiment expOneRun [(exFT, [])] sampleOracle finishedSt).runRows.length = 2 ∧
    (execute_experiment expOneRun [(exFT, [])] sampleOracle finishedSt).runRows.map
        (fun r => r.run_index) = [1, 1] ∧
    (execute_experiment expOneRun [(exFT, [])] sampleOracle finishedSt).items.length = 1 ∧
    (execute_experiment expOneRun [(exFT, [])] sampleOracle finishedSt).status =
      ExperimentStatus.finished :=
  ⟨rfl, rfl, rfl, rfl⟩

/-- C3: after `execute_experiment` completes for an experiment with run
count N (starting with no Run rows), the run_index values of its Run rows
are exactly the list `range' 1 N`, i.e. the contiguous 1-based sequence
1..N in increasing creation order, with no gaps and no duplicates. -/
theorem c3_run_index_dense (exp : ExperimentRec) (exs : List (ExerciseRec × List OptionRec))
    (oracle : Nat → Nat → Except Unit JValue) (st : ExpState) (h : st.runRows = []) :
    (execute_experiment exp exs oracle st).runRows.map (fun r => r.run_index) =
      List.range' 1 exp.runs := by
  simp [execute_experiment, foldl_execRun_runRows, h, List.map_map, Function.comp_def, mkRunRow]

theorem c3_run_index_dense_witness :
    (execute_experiment expTwoRuns [(exFT, [])] sampleOracle plannedSt).runRows.map
        (fun r => r.run_index) = List.range' 1 expTwoRuns.runs :=
  c3_run_index_dense expTwoRuns [(exFT, [])] sampleOracle plannedSt rfl

/-- A reply with a `response.value` field, as the true_false prompt
requests. -/
def tfReply (v : JValue) : JValue := .obj [("response", .obj [("value", v)])]

/-- A reply whose `ordered_option_ids` is not a list. -/
def badRankReply : JValue := .obj [("response", .obj [("ordered_option_ids", .str "oops")])]

/-- C4: producing a BatchItem is total (`store_batch_item` is a function,
never an `Except`), and `parse_success` is false exactly when one of the
two caught exceptions occurred: the provider call raised, or the
extraction block raised on the reply.  Malformed sub-fields handled by a
fallback rule — a non-list `ordered_option_ids`, a null `true_false`
value — leave `parse_success` true. -/
theorem c4_parse_success_iff_caught :
    (∀ (ridx : Nat) (ex : ExerciseRec) (opts : List OptionRec) (pr : Except Unit JValue),
      ((store_batch_item ridx ex opts pr).parse_success = false ↔
        (exOk pr = false ∨
          exOk (extractAnswers ex.answer_type (response_json_of pr)) = false))) ∧
    (store_batch_item 1 exRank [] (.ok badRankReply)).parse_success = true ∧
    (store_batch_item 1 exRank [] (.ok badRankReply)).answer_ranking_json = none ∧
    (store_batch_item 1 exTF [] (.ok (tfReply .null))).parse_success = true := by
  refine ⟨?_, rfl, rfl, rfl⟩
  intro ridx ex opts pr
  show (coerceAnswers ex.answer_type pr).2 = false ↔ _
  cases hx : extractAnswers ex.answer_type (response_json_of pr) with
  | ok f => cases pr <;> simp [coerceAnswers, hx, exOk]
  | error e => cases pr <;> simp [coerceAnswers, hx, exOk]

/-- C5: true_false coercion of `response.value`.  A string is trimmed and
lowercased: the true set gives `answer_boolean = some true`, the false set
`some false`, any other string is cast with Python truthiness (non-empty);
a non-null non-string value is cast with Python truthiness; a null value
gives no answer (`none`); `parse_success` stays true in every case. -/
theorem c5_true_false_coercion (s : String) (v : JValue) :
    ((pyLower (pyStrip s) = "true" ∨ pyLower (pyStrip s) = "yes" ∨ pyLower (pyStrip s) = "y") →
      (store_batch_item 1 exTF [] (.ok (tfReply (.str s)))).answer_boolean = some true ∧
      (store_batch_item 1 exTF [] (.ok (tfReply (.str s)))).parse_success = true) ∧
    ((pyLower (pyStrip s) = "false" ∨ pyLower (pyStrip s) = "no" ∨ pyLower (pyStrip s) = "n") →
      (store_batch_item 1 exTF [] (.ok (tfReply (.str s)))).answer_boolean = some false ∧
      (store_batch_item 1 exTF [] (.ok (tfReply (.str s)))).parse_success = true) ∧
    (¬(pyLower (pyStrip s) = "true" ∨ pyLower (pyStrip s) = "yes" ∨ pyLower (pyStrip s) = "y") →
     ¬(pyLower (pyStrip s) = "false" ∨ pyLower (pyStrip s) = "no" ∨ pyLower (pyStrip s) = "n") →
      (store_batch_item 1 exTF [] (.ok (tfReply (.str s)))).answer_boolean = some (s != "") ∧
      (store_batch_item 1 exTF [] (.ok (tfReply (.str s)))).parse_success = true) ∧
    (jIsNull v = false → jIsStr v = false →
      (store_batch_item 1 exTF [] (.ok (tfReply v))).answer_boolean = some (pyBool v) ∧
      (store_batch_item 1 exTF [] (.ok (tfReply v))).parse_success = true) ∧
    ((store_batch_item 1 exTF [] (.ok (tfReply .null))).answer_boolean = none ∧
     (store_batch_item 1 exTF [] (.ok (tfReply .null))).parse_success = true) := by
  refine ⟨?_, ?_, ?_, ?_, ⟨rfl, rfl⟩⟩
  · intro h
    rcases h with h | h | h <;>
      simp [store_batch_item, coerceAnswers, extractAnswers, extractSection, extractFrom,
        pyGet, pyGetD, assocLookup, pyBool, response_json_of, exOk, tfReply, exTF, h]
  · intro h
    rcases h with h | h | h <;>
      simp [store_batch_item, coerceAnswers, extractAnswers, extractSection, extractFrom,
        pyGet, pyGetD, assocLookup, pyBool, response_json_of, exOk, tfReply, exTF, h]
  · intro h1 h2
    simp [store_batch_item, coerceAnswers, extractAnswers, extractSection, extractFrom,
      pyGet, pyGetD, assocLookup, pyBool, response_json_of, exOk, tfReply, exTF, h1, h2]
  · intro h1 h2
    cases v <;>
      simp_all [store_batch_item, coerceAnswers, extractAnswers, extractSection, extractFrom,
        pyGet, pyGetD, assocLookup, pyBool, response_json_of, exOk, tfReply, exTF,
        jIsNull, jIsStr]

theorem c5_true_false_coercion_witness :
    (store_batch_item 1 exTF [] (.ok (tfReply (.str "YES")))).answer_boolean = some true ∧
    (store_batch_item 1 exTF [] (.ok (tfReply (.str "YES")))).parse_success = true :=
  (c5_true_false_coercion "YES" JValue.null).1 (by decide)

/-- A reply whose `response` key is *present but falsy* (an empty object)
next to a populated legacy `expected.response` wrapper. -/
def rjC6 : JValue :=
  .obj [("response", .obj []),
        ("expected", .obj [("response", .obj [("text", .str "legacy")])])]

/-- C6 counterexample: the claim says a reply that *contains* a `response`
key has its typed answer extracted from that key's value, with the legacy
wrapper consulted only when the key is absent.  On `rjC6` — where the
`response` key is present with value `{}` — the source extracts from the
legacy wrapper (`"legacy"`), while the claim-following extraction yields
`""`; the two disagree. -/
theorem c6_response_key_cex :
    extractFrom (extractSection rjC6) .free_text = .ok { answer_text := some "legacy" } ∧
    extractFrom (extractSectionSpec rjC6) .free_text = .ok { answer_text := some "" } ∧
    some "legacy" ≠ some "" :=
  ⟨rfl, rfl, by decide⟩

/-- C6 amended: extraction prefers the `response` key whenever its value
is *truthy*; the legacy `expected.response` wrapper is consulted whenever
the `response` value is falsy — which covers both an absent key and a
present-but-falsy value such as `{}`. -/
theorem c6_fallback_on_falsy (fs : List (String × JValue)) (v : JValue) :
    (assocLookup fs "response" = some v → pyBool v = true →
      extractSection (.obj fs) = .ok v) ∧
    (assocLookup fs "response" = some v → pyBool v = false →
      extractSection (.obj fs) =
        pyGetD ((assocLookup fs "expected").getD (.obj [])) "response" (.obj [])) ∧
    extractSection rjC6 = .ok (.obj [("text", .str "legacy")]) ∧
    extractSection (.obj [("expected", .obj [("response", .str "fb")])]) = .ok (.str "fb") := by
  refine ⟨?_, ?_, rfl, rfl⟩
  · intro hv ht
    simp [extractSection, pyGet, hv, ht]
  · intro hv hf
    simp [extractSection, pyGet, pyGetD, hv, hf]

theorem c6_fallback_on_falsy_witness :
    extractSection (.obj [("response", .str "hi")]) = .ok (.str "hi") :=
  (c6_fallback_on_falsy [("response", JValue.str "hi")] (JValue.str "hi")).1 rfl rfl

def sNoKeys : SettingsRec := ⟨none, none, none, none⟩

def dbEmpty : CreateDB := ⟨[], [], [], []⟩

def payGemini : ExperimentPayload := ⟨"exp", "", "gemini", "gemini-pro", 1, [1]⟩

def payUnknown : ExperimentPayload := ⟨"exp", "", "frontierlab", "fl-1", 1, [7]⟩

def payUnknown2 : ExperimentPayload := ⟨"exp2", "", "mistral", "mx", 2, [3, 4]⟩

/-- C7: creating an experiment whose (known) provider has a missing/empty
API key in settings fails synchronously with the 400 validation error and
leaves the database untouched: no Experiment row, no link, no Run row and
no BatchItem row is created. -/
theorem c7_missing_key_rejected (payload : ExperimentPayload) (settings : SettingsRec)
    (db : CreateDB) (k : Option String)
    (hk : lookupKey (provider_key_map settings) payload.provider = some k)
    (hmiss : keyFalsy k = true) :
    create_experiment payload settings db =
      (db, .error (400, "API key missing for selected provider")) := by
  simp [create_experiment, hk, hmiss]

theorem c7_missing_key_rejected_witness :
    create_experiment payGemini sNoKeys dbEmpty =
      (dbEmpty, .error (400, "API key missing for selected provider")) :=
  c7_missing_key_rejected payGemini sNoKeys dbEmpty none rfl rfl

/-- C8 counterexample: the claim says an unknown provider is rejected and
the experiment never created.  With provider "frontierlab" (outside the
four known names) and no API key configured at all, `create_experiment`
succeeds and the Experiment row is created. -/
theorem c8_unknown_provider_cex :
    (create_experiment payUnknown sNoKeys dbEmpty).2 = .ok 1 ∧
    (create_experiment payUnknown sNoKeys dbEmpty).1.experiments.length = 1 ∧
    (create_experiment payUnknown sNoKeys dbEmpty).1.experiments.map (fun e => e.provider) =
      ["frontierlab"] :=
  ⟨rfl, rfl, rfl⟩

/-- C8 amended: `create_experiment` does not reject unknown providers: a
provider outside {openai, anthropic, gemini, grok} skips the key check
entirely, and (given a non-empty exercise list) the experiment is created
as planned; execution later falls through to the deterministic sample
responder. -/
theorem c8_unknown_provider_not_rejected (payload : ExperimentPayload) (settings : SettingsRec)
    (db : CreateDB)
    (hp : payload.provider ∉ ["openai", "anthropic", "gemini", "grok"])
    (hne : payload.exercise_ids ≠ []) :
    (create_experiment payload settings db).2 = .ok (db.experiments.length + 1) ∧
    (create_experiment payload settings db).1.experiments.length =
      db.experiments.length + 1 := by
  have h1 : payload.provider ≠ "openai" := fun h => hp (by simp [h])
  have h2 : payload.provider ≠ "anthropic" := fun h => hp (by simp [h])
  have h3 : payload.provider ≠ "gemini" := fun h => hp (by simp [h])
  have h4 : payload.provider ≠ "grok" := fun h => hp (by simp [h])
  have hlk : lookupKey (provider_key_map settings) payload.provider = none := by
    simp [lookupKey, provider_key_map, Ne.symm h1, Ne.symm h2, Ne.symm h3, Ne.symm h4]
  simp [create_experiment, hlk, create_experiment_insert, hne]

theorem c8_unknown_provider_not_rejected_witness :
    (create_experiment payUnknown2 sNoKeys dbEmpty).2 = .ok 1 ∧
    (create_experiment payUnknown2 sNoKeys dbEmpty).1.experiments.length = 1 :=
  c8_unknown_provider_not_rejected payUnknown2 sNoKeys dbEmpty (by decide) (by decide)

/-- The number of populated answer slots of an `AnswerFields` record. -/
def populatedFieldCount (f : AnswerFields) : Nat :=
  (if f.answer_text.isSome then 1 else 0) + (if f.answer_boolean.isSome then 1 else 0) +
  (if f.answer_option_id.isSome then 1 else 0) + (if f.answer_ranking_json.isSome then 1 else 0)

theorem count_bool_slot (o : Option Bool) :
    populatedFieldCount { answer_boolean := o } ≤ 1 := by
  cases o <;> simp [populatedFieldCount]

theorem count_option_slot (o : Option JValue) :
    populatedFieldCount { answer_option_id := o } ≤ 1 := by
  cases o <;> simp [populatedFieldCount]

/-- A successful extraction populates at most one answer slot, and only
the slot matching the requested answer type. -/
theorem extractFrom_ok_shape (sec0 : Except Unit JValue) (ty : AnswerType) (f : AnswerFields)
    (h : extractFrom sec0 ty = .ok f) :
    populatedFieldCount f ≤ 1 ∧
    (f.answer_text.isSome → ty = .free_text) ∧
    (f.answer_boolean.isSome → ty = .true_false) ∧
    (f.answer_option_id.isSome → ty = .single_choice) ∧
    (f.answer_ranking_json.isSome → ty = .ranking) := by
  cases sec0 with
  | error e => simp [extractFrom] at h
  | ok sec =>
    cases ty with
    | free_text =>
      cases hg : pyGetD sec "text" (.str "") with
      | error e =>
        simp only [extractFrom, hg] at h
        exact Except.noConfusion h
      | ok t =>
        simp only [extractFrom, hg, Except.ok.injEq] at h
        subst h
        exact ⟨by simp [populatedFieldCount], fun _ => rfl, by simp, by simp, by simp⟩
    | true_false =>
      cases hg : pyGet sec "value" with
      | error e =>
        simp only [extractFrom, hg] at h
        exact Except.noConfusion h
      | ok v0 =>
        simp only [extractFrom, hg, Except.ok.injEq] at h
        subst h
        exact ⟨count_bool_slot _, by simp, fun _ => rfl, by simp, by simp⟩
    | single_choice =>
      cases hg : pyGet sec "selected_option_id" with
      | error e =>
        simp only [extractFrom, hg] at h
        exact Except.noConfusion h
      | ok v =>
        simp only [extractFrom, hg, Except.ok.injEq] at h
        subst h
        exact ⟨count_option_slot _, by simp, by simp, fun _ => rfl, by simp⟩
    | ranking =>
      cases hg : pyGet sec "ordered_option_ids" with
      | error e =>
        simp only [extractFrom, hg] at h
        exact Except.noConfusion h
      | ok v =>
        cases v <;> simp only [extractFrom, hg, Except.ok.injEq] at h <;> subst h <;>
          exact ⟨by simp [populatedFieldCount], by simp, by simp, by simp, fun _ => rfl⟩

theorem store_batch_item_count (ridx : Nat) (ex : ExerciseRec) (opts : List OptionRec)
    (pr : Except Unit JValue) :
    populatedCount (store_batch_item ridx ex opts pr) =
      populatedFieldCount (coerceAnswers ex.answer_type pr).1 := rfl

theorem store_fields_match_iff (ridx : Nat) (ex : ExerciseRec) (opts : List OptionRec)
    (pr : Except Unit JValue) :
    fieldsMatchType (store_batch_item ridx ex opts pr) ↔
      (((coerceAnswers ex.answer_type pr).1.answer_text.isSome → ex.answer_type = .free_text) ∧
       ((coerceAnswers ex.answer_type pr).1.answer_boolean.isSome → ex.answer_type = .true_false) ∧
       ((coerceAnswers ex.answer_type pr).1.answer_option_id.isSome →
          ex.answer_type = .single_choice) ∧
       ((coerceAnswers ex.answer_type pr).1.answer_ranking_json.isSome →
          ex.answer_type = .ranking)) :=
  Iff.rfl

/-- C9 counterexample: the claim says every written BatchItem has *exactly
one* answer field populated.  A true_false item whose reply is the empty
object is written with *zero* populated fields — and it is not even a
parse failure. -/
theorem c9_exactly_one_cex :
    populatedCount (store_batch_item 1 exTF [] (.ok (.obj []))) = 0 ∧
    (store_batch_item 1 exTF [] (.ok (.obj []))).parse_success = true ∧
    (0 : Nat) ≠ 1 :=
  ⟨rfl, rfl, by decide⟩

/-- C9 amended: every BatchItem written has *at most* one of the four
answer fields populated, and a populated field is always the one
corresponding to the item's snapshotted answer_type. -/
theorem c9_at_most_one_field (ridx : Nat) (ex : ExerciseRec) (opts : List OptionRec)
    (pr : Except Unit JValue) :
    populatedCount (store_batch_item ridx ex opts pr) ≤ 1 ∧
    fieldsMatchType (store_batch_item ridx ex opts pr) := by
  rw [store_batch_item_count, store_fields_match_iff]
  cases hx : extractAnswers ex.answer_type (response_json_of pr) with
  | error e =>
    have hfp : coerceAnswers ex.answer_type pr = ({}, false) := by
      simp [coerceAnswers, hx]
    rw [hfp]
    exact ⟨by simp [populatedFieldCount], by simp, by simp, by simp, by simp⟩
  | ok f =>
    have hfp : coerceAnswers ex.answer_type pr = (f, exOk pr) := by
      simp [coerceAnswers, hx]
    rw [hfp]
    simp only [extractAnswers] at hx
    have hs := extractFrom_ok_shape _ _ _ hx
    exact ⟨hs.1, hs.2.1, hs.2.2.1, hs.2.2.2.1, hs.2.2.2.2⟩

theorem c9_at_most_one_field_witness :
    populatedCount (store_batch_item 2 exRank []
      (.ok (.obj [("response", .obj [("ordered_option_ids", .arr [.num 3, .num 1, .num 2])])]))) ≤ 1 ∧
    fieldsMatchType (store_batch_item 2 exRank []
      (.ok (.obj [("response", .obj [("ordered_option_ids", .arr [.num 3, .num 1, .num 2])])]))) :=
  c9_at_most_one_field 2 exRank []
    (.ok (.obj [("response", .obj [("ordered_option_ids", .arr [.num 3, .num 1, .num 2])])]))

/-- C10: when the OpenAI adapter gets a 2xx reply whose message content is
not valid JSON (`parsed = none`), it does not fail: it wraps the raw
content as `response.text`, so a free_text exercise coerces such a reply
into a successful answer (`parse_success = true`, the stripped content as
`answer_text`) instead of a parse failure. -/
theorem c10_nonjson_wrapped (content : String) :
    (store_batch_item 1 exFT [] (.ok (call_openai_content content none))).answer_text =
      some (pyStrip content) ∧
    (store_batch_item 1 exFT [] (.ok (call_openai_content content none))).parse_success = true := by
  constructor <;>
    simp [store_batch_item, coerceAnswers, extractAnswers, extractSection, extractFrom,
      call_openai_content, pyGet, pyGetD, assocLookup, pyBool, response_json_of, exOk,
      exFT, pyStr]
